import Mathlib

/-!
# Verification of the VO_Sim session lifecycle core

A shallow embedding of the session subsystem of the VO_Sim repository:

* `SessionState`, `EventType`, `Event` — `src/vo_sim/schemas.py`
* `SessionStateMachine.transition_to` and friends — `src/vo_sim/session/state_machine.py`
* `EventStore.append_event` / `load_events` — `src/vo_sim/session/storage.py`
* `SessionManager` operations — `src/vo_sim/session/manager.py`

Python exceptions are modelled with an explicit error type: every operation
returns its outcome (`Except SimError α`) together with the manager state at
the moment of return, so that partial mutation on an error path (an exception
raised after a file write) is represented faithfully.  JSONL persistence is
modelled at the level of log lines: a line is either whitespace-only, a JSON
value, or text that is not valid JSON; serialization of an `Event` to its JSON
object and validation back mirror `model_dump_json` / `model_validate_json`
field by field.
-/

deriving instance DecidableEq for Except

/-- The five session states of `vo_sim.schemas.SessionState`. -/
inductive SessionState where
  | IDLE
  | PROBLEM_PRESENTED
  | EVALUATING
  | AWAITING_ACTION
  | DONE
deriving DecidableEq, Fintype

/-- The string value of each `SessionState` enum member. -/
def SessionState.value : SessionState → String
  | .IDLE => "idle"
  | .PROBLEM_PRESENTED => "problem_presented"
  | .EVALUATING => "evaluating"
  | .AWAITING_ACTION => "awaiting_action"
  | .DONE => "done"

/-- The event types of `vo_sim.schemas.EventType`. -/
inductive EventType where
  | SESSION_STARTED
  | CODE_SUBMITTED
  | EVAL_RESULT
  | HINT_REQUESTED
  | HINT_GIVEN
  | AGENT_RESPONSE
  | SESSION_ENDED
deriving DecidableEq, Fintype

/-- The string value of each `EventType` enum member. -/
def EventType.value : EventType → String
  | .SESSION_STARTED => "SESSION_STARTED"
  | .CODE_SUBMITTED => "CODE_SUBMITTED"
  | .EVAL_RESULT => "EVAL_RESULT"
  | .HINT_REQUESTED => "HINT_REQUESTED"
  | .HINT_GIVEN => "HINT_GIVEN"
  | .AGENT_RESPONSE => "AGENT_RESPONSE"
  | .SESSION_ENDED => "SESSION_ENDED"

/-- Parse an `EventType` from its string value (pydantic enum validation). -/
def EventType.ofValue (s : String) : Option EventType :=
  if s = "SESSION_STARTED" then some .SESSION_STARTED
  else if s = "CODE_SUBMITTED" then some .CODE_SUBMITTED
  else if s = "EVAL_RESULT" then some .EVAL_RESULT
  else if s = "HINT_REQUESTED" then some .HINT_REQUESTED
  else if s = "HINT_GIVEN" then some .HINT_GIVEN
  else if s = "AGENT_RESPONSE" then some .AGENT_RESPONSE
  else if s = "SESSION_ENDED" then some .SESSION_ENDED
  else none

mutual
/-- JSON values, for event payloads and serialized event records. -/
inductive Json where
  | null
  | bool (b : Bool)
  | num (n : Int)
  | str (s : String)
  | arr (elems : JsonList)
  | obj (fields : JsonFields)
deriving DecidableEq

/-- A list of JSON values (elements of a JSON array). -/
inductive JsonList where
  | nil
  | cons (hd : Json) (tl : JsonList)
deriving DecidableEq

/-- The fields of a JSON object: an ordered key/value association. -/
inductive JsonFields where
  | nil
  | cons (key : String) (val : Json) (tl : JsonFields)
deriving DecidableEq
end

/-- Look up a key among JSON object fields (first occurrence). -/
def JsonFields.lookup : JsonFields → String → Option Json
  | .nil, _ => none
  | .cons k v tl, key => if k = key then some v else tl.lookup key

/-- Look up a field of a JSON object (first occurrence). -/
def Json.getField : Json → String → Option Json
  | .obj fields, key => fields.lookup key
  | _, _ => none

/-- `vo_sim.schemas.Event`: session id, timestamp, event type, open payload.
The timestamp is an abstract UTC instant (`datetime.utcnow()` at creation);
the payload is an open JSON object. -/
structure Event where
  session_id : String
  timestamp : Nat
  event_type : EventType
  payload : JsonFields
deriving DecidableEq

/-- `Event.model_dump_json`: the serialized JSON object of an event. -/
def Event.toJson (e : Event) : Json :=
  .obj (.cons "session_id" (.str e.session_id)
       (.cons "timestamp" (.num (e.timestamp : Int))
       (.cons "event_type" (.str e.event_type.value)
       (.cons "payload" (.obj e.payload) .nil))))

/-- `Event.model_validate_json`: validate a JSON value as an `Event`;
each field must be present with the right shape. -/
def Event.fromJson (j : Json) : Option Event :=
  match j.getField "session_id", j.getField "timestamp",
        j.getField "event_type", j.getField "payload" with
  | some (.str sid), some (.num ts), some (.str ty), some (.obj pl) =>
    match EventType.ofValue ty, ts with
    | some ety, .ofNat tsn => some { session_id := sid, timestamp := tsn,
                                     event_type := ety, payload := pl }
    | _, _ => none
  | _, _, _, _ => none

/-- Errors of the session core: the exception classes
`NoActiveSessionError`, `SessionAlreadyActiveError`,
`InvalidTransitionError`, plus the `CorruptLog` condition of a failed
`model_validate_json` during `load_events`, and a generic `internalError`
for an attribute access on a `None` state machine. -/
inductive SimError where
  | noActiveSession
  | sessionAlreadyActive (active_id : String)
  | invalidTransition (current next : SessionState)
  | corruptLog
  | internalError
deriving DecidableEq

namespace SessionStateMachine

/-- `SessionStateMachine._VALID_TRANSITIONS`: the fixed transition table. -/
def _VALID_TRANSITIONS (s : SessionState) : List SessionState :=
  match s with
  | .IDLE => [.PROBLEM_PRESENTED, .DONE]
  | .PROBLEM_PRESENTED => [.EVALUATING, .DONE]
  | .EVALUATING => [.AWAITING_ACTION, .DONE]
  | .AWAITING_ACTION => [.EVALUATING, .AWAITING_ACTION, .DONE]
  | .DONE => []

/-- `SessionStateMachine.can_transition_to`. -/
def can_transition_to (current next : SessionState) : Bool :=
  next ∈ _VALID_TRANSITIONS current

/-- `SessionStateMachine.transition_to`: the new current state on success,
`InvalidTransitionError` otherwise (the exception is raised before the
assignment, so on failure the machine keeps its old state). -/
def transition_to (current next : SessionState) : Except SimError SessionState :=
  if can_transition_to current next then .ok next
  else .error (.invalidTransition current next)

/-- The state a machine at `current` holds after attempting
`transition_to next`: the target on success, unchanged on failure. -/
def stepState (current next : SessionState) : SessionState :=
  match transition_to current next with
  | .ok s => s
  | .error _ => current

/-- `SessionStateMachine.is_done`. -/
def is_done (current : SessionState) : Bool :=
  current = SessionState.DONE

end SessionStateMachine

/-- One line of a `{session_id}.jsonl` log file: whitespace-only, a line
holding one JSON value, or text that is not valid JSON. -/
inductive LogLine where
  | blank
  | record (j : Json)
  | garbage (s : String)
deriving DecidableEq

/-- The persisted state of `EventStore`: for each session id, the lines of
`sessions/{session_id}.jsonl`, or `none` when no such file exists. -/
abbrev Files : Type := String → Option (List LogLine)

namespace EventStore

/-- `EventStore.append_event`: serialize the event with `model_dump_json` and
append it as one line to the log of `event.session_id`, creating the file if
absent. -/
def append_event (files : Files) (event : Event) : Files :=
  fun sid =>
    if sid = event.session_id then
      some ((files event.session_id).getD [] ++ [.record event.toJson])
    else files sid

/-- The loop body of `EventStore.load_events`: strip each line, skip it when
empty, otherwise `Event.model_validate_json` it — a validation failure aborts
the whole load (the `CorruptLog` condition). -/
def parseLines : List LogLine → Except SimError (List Event)
  | [] => .ok []
  | .blank :: rest => parseLines rest
  | .record j :: rest =>
    match Event.fromJson j with
    | some e => (parseLines rest).map (e :: ·)
    | none => .error .corruptLog
  | .garbage _ :: _ => .error .corruptLog

/-- `EventStore.load_events`: all events of a session in append order; the
empty list (not an error) when the session has no log file. -/
def load_events (files : Files) (session_id : String) : Except SimError (List Event) :=
  match files session_id with
  | none => .ok []
  | some lines => parseLines lines

/-- `EventStore.session_exists`: does `sessions/{session_id}.jsonl` exist. -/
def session_exists (files : Files) (session_id : String) : Bool :=
  (files session_id).isSome

end EventStore

/-- Python's `str.strip()`: remove leading and trailing whitespace. -/
def pyStrip (s : String) : String :=
  ⟨((s.data.dropWhile Char.isWhitespace).reverse.dropWhile Char.isWhitespace).reverse⟩

/-- The in-memory and persisted state a `SessionManager` instance works on:
the event-log files, the `current_session.txt` pointer file (`none` when the
file is absent), and the two private attributes `_active_session_id` and
`_state_machine`. -/
structure SessionManager where
  files : Files
  pointer : Option String
  active_session_id : Option String
  state_machine : Option SessionState

namespace SessionManager

/-- `SessionManager._load_active_session`: read the pointer file if it exists,
strip it, and verify the referenced session's log exists; otherwise `None`. -/
def _load_active_session (files : Files) (pointer : Option String) : Option String :=
  match pointer with
  | some content =>
    let session_id := pyStrip content
    if session_id ≠ "" ∧ EventStore.session_exists files session_id then
      some session_id
    else none
  | none => none

/-- `SessionManager.__init__` bound to a storage root holding `files` and
pointer file `pointer`: load and validate the active session, and if one is
found restore a state machine — the code initializes it to `AWAITING_ACTION`
without replaying events (`_restore_state_machine`). -/
def init (files : Files) (pointer : Option String) : SessionManager :=
  let active := _load_active_session files pointer
  { files := files
    pointer := pointer
    active_session_id := active
    state_machine := match active with
      | some _ => some SessionState.AWAITING_ACTION
      | none => none }

/-- `SessionManager.has_active_session`. -/
def has_active_session (m : SessionManager) : Bool :=
  m.active_session_id.isSome

/-- `SessionManager.create_session`.  The fresh `uuid4` identifier and the
`utcnow` timestamp of the emitted event are passed in explicitly.  On the
`SessionAlreadyActiveError` path the manager is untouched. -/
def create_session (m : SessionManager) (session_id : String) (ts : Nat) :
    Except SimError String × SessionManager :=
  match m.active_session_id with
  | some active => (.error (.sessionAlreadyActive active), m)
  | none =>
    let event : Event :=
      { session_id := session_id
        timestamp := ts
        event_type := .SESSION_STARTED
        payload := .cons "problem_id" (.str "lru_cache") .nil }
    let files1 := EventStore.append_event m.files event
    match SessionStateMachine.transition_to .IDLE .PROBLEM_PRESENTED with
    | .error e => (.error e, { m with files := files1, state_machine := some .IDLE })
    | .ok st =>
      (.ok session_id,
       { m with files := files1
                state_machine := some st
                active_session_id := some session_id
                pointer := some session_id })

/-- `SessionManager.end_session`.  The `SESSION_ENDED` event is appended
before the transition to `DONE` is attempted, so when that transition raises
the appended event stays in the log and the session stays active. -/
def end_session (m : SessionManager) (ts : Nat) :
    Except SimError Unit × SessionManager :=
  match m.active_session_id, m.state_machine with
  | none, _ => (.error .noActiveSession, m)
  | some sid, some st =>
    let event : Event :=
      { session_id := sid
        timestamp := ts
        event_type := .SESSION_ENDED
        payload := .cons "final_state" (.str st.value) .nil }
    let files1 := EventStore.append_event m.files event
    match SessionStateMachine.transition_to st .DONE with
    | .error e => (.error e, { m with files := files1 })
    | .ok _ =>
      (.ok (),
       { m with files := files1
                state_machine := none
                active_session_id := none
                pointer := none })
  | some _, none => (.error .internalError, m)

/-- `SessionManager.get_active_session_id`. -/
def get_active_session_id (m : SessionManager) : Except SimError String :=
  match m.active_session_id with
  | none => .error .noActiveSession
  | some sid => .ok sid

/-- `SessionManager.get_current_state`. -/
def get_current_state (m : SessionManager) : Except SimError SessionState :=
  match m.active_session_id, m.state_machine with
  | none, _ => .error .noActiveSession
  | some _, some st => .ok st
  | some _, none => .error .internalError

/-- `SessionManager.transition_to`: delegate to the state machine, surfacing
`InvalidTransitionError`; the machine keeps its state on failure and the log
and pointer are never touched. -/
def transition_to (m : SessionManager) (next : SessionState) :
    Except SimError Unit × SessionManager :=
  match m.active_session_id, m.state_machine with
  | none, _ => (.error .noActiveSession, m)
  | some _, some st =>
    match SessionStateMachine.transition_to st next with
    | .error e => (.error e, m)
    | .ok st' => (.ok (), { m with state_machine := some st' })
  | some _, none => (.error .internalError, m)

/-- `SessionManager.emit_event`: stamp the active session id (and the given
`utcnow` timestamp) on the payload and append it. -/
def emit_event (m : SessionManager) (event_type : EventType)
    (payload : JsonFields) (ts : Nat) : Except SimError Unit × SessionManager :=
  match m.active_session_id with
  | none => (.error .noActiveSession, m)
  | some sid =>
    let event : Event :=
      { session_id := sid
        timestamp := ts
        event_type := event_type
        payload := payload }
    (.ok (), { m with files := EventStore.append_event m.files event })

/-- `SessionManager.get_session_events`: delegate to the store for the active
identifier. -/
def get_session_events (m : SessionManager) : Except SimError (List Event) :=
  match m.active_session_id with
  | none => .error .noActiveSession
  | some sid => EventStore.load_events m.files sid

end SessionManager

/-- Following the spec's words (§4.3, §9): the session's true state is the
one obtained by replaying all persisted events for the session through the
transition table starting from `Idle`.  Each event type is replayed as the
flow step it records (`SESSION_STARTED` presents the problem,
`CODE_SUBMITTED` starts an evaluation, `EVAL_RESULT` and the hint events
land in `AWAITING_ACTION`, `SESSION_ENDED` closes the session), applied
through the table: a step the table forbids leaves the state unchanged. -/
def replayEvent (s : SessionState) : EventType → SessionState
  | .SESSION_STARTED => SessionStateMachine.stepState s .PROBLEM_PRESENTED
  | .CODE_SUBMITTED => SessionStateMachine.stepState s .EVALUATING
  | .EVAL_RESULT => SessionStateMachine.stepState s .AWAITING_ACTION
  | .HINT_REQUESTED => SessionStateMachine.stepState s .AWAITING_ACTION
  | .HINT_GIVEN => SessionStateMachine.stepState s .AWAITING_ACTION
  | .AGENT_RESPONSE => s
  | .SESSION_ENDED => SessionStateMachine.stepState s .DONE

/-- Following the spec's words: the true state recovered by replaying the
whole persisted event sequence from `Idle`. -/
def replayEvents (events : List Event) : SessionState :=
  events.foldl (fun s e => replayEvent s e.event_type) .IDLE

/-- A log line the `load_events` loop rejects: non-blank and failing
`model_validate_json` — either text that is not valid JSON, or a JSON value
that is not a valid serialized `Event`. -/
def lineCorrupt : LogLine → Prop
  | .blank => False
  | .record j => Event.fromJson j = none
  | .garbage _ => True

instance : DecidablePred lineCorrupt := fun l => by
  cases l <;> simp only [lineCorrupt] <;> infer_instance

/-- A log with its whitespace-only lines dropped. -/
def removeBlanks (lines : List LogLine) : List LogLine :=
  lines.filter (fun l => !(l == .blank))

/-- A storage root holding no files at all. -/
def filesEmpty : Files := fun _ => none

/-- A manager freshly constructed on an empty storage root. -/
def mgr0 : SessionManager := SessionManager.init filesEmpty none

/-- The manager after `create_session` returned id `"s1"` (event timestamp 0). -/
def mgr1 : SessionManager := (mgr0.create_session "s1" 0).2

/-- The manager after a further `transition_to(DONE)` — the session is still
active but its machine sits in the terminal state. -/
def mgr2 : SessionManager := (mgr1.transition_to .DONE).2

/-- The single `SESSION_STARTED` event persisted by `mgr1`'s creation. -/
def startEvent : Event :=
  { session_id := "s1", timestamp := 0, event_type := .SESSION_STARTED,
    payload := .cons "problem_id" (.str "lru_cache") .nil }

/-- Validating the serialized form of an event recovers the event exactly:
the field-by-field inverse of `model_dump_json` under `model_validate_json`. -/
theorem Event.fromJson_toJson (e : Event) : Event.fromJson (Event.toJson e) = some e := by
  rcases e with ⟨sid, ts, ty, pl⟩
  cases ty <;> rfl


/-- C1: `transition_to t` from state `s` succeeds and sets the current state
to `t` exactly when `t` is in the allowed-next set of `s` in
`_VALID_TRANSITIONS`; otherwise it fails with `InvalidTransition` and leaves
the current state unchanged.  From `DONE` every attempt fails, and from every
non-terminal state `transition_to DONE` succeeds. -/
theorem transitionTo_matches_table (s t : SessionState) :
    (t ∈ SessionStateMachine._VALID_TRANSITIONS s →
       SessionStateMachine.transition_to s t = .ok t
       ∧ SessionStateMachine.stepState s t = t)
  ∧ (t ∉ SessionStateMachine._VALID_TRANSITIONS s →
       SessionStateMachine.transition_to s t = .error (.invalidTransition s t)
       ∧ SessionStateMachine.stepState s t = s)
  ∧ SessionStateMachine.transition_to .DONE t = .error (.invalidTransition .DONE t)
  ∧ (s ≠ .DONE → SessionStateMachine.transition_to s .DONE = .ok .DONE) := by
  revert s t
  decide

/-- Instantiation of `transitionTo_matches_table`: the `AWAITING_ACTION`
self-loop succeeds, `EVALUATING → IDLE` fails leaving the state unchanged,
and `EVALUATING → DONE` succeeds. -/
theorem transitionTo_matches_table_witness :
    (SessionStateMachine.transition_to .AWAITING_ACTION .AWAITING_ACTION = .ok .AWAITING_ACTION
     ∧ SessionStateMachine.stepState .AWAITING_ACTION .AWAITING_ACTION = .AWAITING_ACTION)
  ∧ (SessionStateMachine.transition_to .EVALUATING .IDLE = .error (.invalidTransition .EVALUATING .IDLE)
     ∧ SessionStateMachine.stepState .EVALUATING .IDLE = .EVALUATING)
  ∧ SessionStateMachine.transition_to .EVALUATING .DONE = .ok .DONE :=
  ⟨(transitionTo_matches_table .AWAITING_ACTION .AWAITING_ACTION).1 (by decide),
   (transitionTo_matches_table .EVALUATING .IDLE).2.1 (by decide),
   (transitionTo_matches_table .EVALUATING .DONE).2.2.2 (by decide)⟩

/-- An inactive manager has `active_session_id = none`. -/
theorem active_session_id_eq_none {m : SessionManager}
    (hA : m.has_active_session = false) : m.active_session_id = none := by
  cases h : m.active_session_id with
  | none => rfl
  | some a => simp [SessionManager.has_active_session, h] at hA

/-- Parsing the log that holds exactly one serialized event yields that event. -/
theorem parseLines_single (e : Event) :
    EventStore.parseLines [.record e.toJson] = .ok [e] := by
  simp [EventStore.parseLines, Event.fromJson_toJson, Except.map]

/-- C3: with no active session, `create_session` returns the fresh id; right
afterwards the current state is `PROBLEM_PRESENTED`, the session's event log
holds exactly one `SESSION_STARTED` event, and the fresh id is recorded as
the persisted active-session pointer. -/
theorem create_session_spec (m : SessionManager) (fresh : String) (ts : Nat)
    (hA : m.has_active_session = false) (hfresh : m.files fresh = none) :
    (m.create_session fresh ts).1 = .ok fresh
  ∧ (m.create_session fresh ts).2.get_current_state = .ok .PROBLEM_PRESENTED
  ∧ (m.create_session fresh ts).2.get_session_events =
      .ok [{ session_id := fresh, timestamp := ts, event_type := .SESSION_STARTED,
             payload := .cons "problem_id" (.str "lru_cache") .nil }]
  ∧ (m.create_session fresh ts).2.pointer = some fresh
  ∧ (m.create_session fresh ts).2.active_session_id = some fresh := by
  have hA' := active_session_id_eq_none hA
  have htr : SessionStateMachine.transition_to .IDLE .PROBLEM_PRESENTED =
      .ok .PROBLEM_PRESENTED := rfl
  simp only [SessionManager.create_session, hA', htr]
  refine ⟨trivial, rfl, ?_, trivial, trivial⟩
  simp [SessionManager.get_session_events, EventStore.load_events,
    EventStore.append_event, hfresh, parseLines_single]

/-- Instantiation of `create_session_spec` on an empty storage root with the
fresh id `"s1"` and timestamp 0. -/
theorem create_session_spec_witness :
    (mgr0.create_session "s1" 0).1 = .ok "s1"
  ∧ (mgr0.create_session "s1" 0).2.get_current_state = .ok .PROBLEM_PRESENTED
  ∧ (mgr0.create_session "s1" 0).2.get_session_events =
      .ok [{ session_id := "s1", timestamp := 0, event_type := .SESSION_STARTED,
             payload := .cons "problem_id" (.str "lru_cache") .nil }]
  ∧ (mgr0.create_session "s1" 0).2.pointer = some "s1"
  ∧ (mgr0.create_session "s1" 0).2.active_session_id = some "s1" :=
  create_session_spec mgr0 "s1" 0 (by decide) rfl

/-- C5: after a successful `create_session` returning `id1`, a second
`create_session` without an intervening `end_session` fails with
`SessionAlreadyActive` reporting `id1`, and the active identifier, the
persisted pointer, and the whole manager state are unchanged by the failed
attempt. -/
theorem second_create_session_fails (m : SessionManager) (id1 id2 : String)
    (ts1 ts2 : Nat) (hA : m.has_active_session = false) :
    (m.create_session id1 ts1).1 = .ok id1
  ∧ ((m.create_session id1 ts1).2.create_session id2 ts2).1 =
      .error (.sessionAlreadyActive id1)
  ∧ ((m.create_session id1 ts1).2.create_session id2 ts2).2.active_session_id = some id1
  ∧ ((m.create_session id1 ts1).2.create_session id2 ts2).2.pointer = some id1
  ∧ ((m.create_session id1 ts1).2.create_session id2 ts2).2 =
      (m.create_session id1 ts1).2 := by
  have hA' := active_session_id_eq_none hA
  simp only [SessionManager.create_session, hA']
  exact ⟨rfl, rfl, rfl, rfl, rfl⟩

/-- Instantiation of `second_create_session_fails` on an empty storage root:
the second create fails reporting `"s1"` and leaves `"s1"` active. -/
theorem second_create_session_fails_witness :
    (mgr0.create_session "s1" 0).1 = .ok "s1"
  ∧ ((mgr0.create_session "s1" 0).2.create_session "s2" 1).1 =
      .error (.sessionAlreadyActive "s1")
  ∧ ((mgr0.create_session "s1" 0).2.create_session "s2" 1).2.active_session_id = some "s1"
  ∧ ((mgr0.create_session "s1" 0).2.create_session "s2" 1).2.pointer = some "s1"
  ∧ ((mgr0.create_session "s1" 0).2.create_session "s2" 1).2 =
      (mgr0.create_session "s1" 0).2 :=
  second_create_session_fails mgr0 "s1" "s2" 0 1 (by decide)

/-- From every non-terminal state the transition to `DONE` is allowed. -/
theorem transition_done_of_ne (st : SessionState) (h : st ≠ .DONE) :
    SessionStateMachine.transition_to st .DONE = .ok .DONE := by
  revert h
  revert st
  decide

/-- C4 counterexample: `mgr2` holds an active session whose machine already
sits in `DONE` (reached by `transition_to(DONE)` without `end_session`), and
on it `end_session` fails with `InvalidTransition` and leaves the session
active with the pointer still set — the claim promises success from any
reachable state of an active session. -/
theorem end_session_done_counterexample :
    mgr2.has_active_session = true
  ∧ mgr2.get_current_state = .ok .DONE
  ∧ (mgr2.end_session 1).1 = .error (.invalidTransition .DONE .DONE)
  ∧ (mgr2.end_session 1).2.has_active_session = true
  ∧ (mgr2.end_session 1).2.pointer = some "s1" := by
  decide

/-- C4 (amended): `end_session` with no active session fails with
`NoActiveSession` and changes nothing; with an active session whose machine
is not already in `DONE` it appends exactly one `SESSION_ENDED` event
carrying the final state name, discards the machine, clears the
active-session pointer in memory and on storage, and afterwards
`has_active_session` is false. -/
theorem end_session_spec (m : SessionManager) (ts : Nat) :
    (m.has_active_session = false →
       (m.end_session ts).1 = .error .noActiveSession ∧ (m.end_session ts).2 = m)
  ∧ (∀ sid st, m.active_session_id = some sid → m.state_machine = some st →
       st ≠ .DONE →
       (m.end_session ts).1 = .ok ()
       ∧ (m.end_session ts).2.files sid =
           some ((m.files sid).getD [] ++
             [.record (Event.toJson ⟨sid, ts, .SESSION_ENDED,
                .cons "final_state" (.str st.value) .nil⟩)])
       ∧ (∀ other, other ≠ sid → (m.end_session ts).2.files other = m.files other)
       ∧ (m.end_session ts).2.active_session_id = none
       ∧ (m.end_session ts).2.state_machine = none
       ∧ (m.end_session ts).2.pointer = none
       ∧ (m.end_session ts).2.has_active_session = false) := by
  constructor
  · intro hA
    have hA' := active_session_id_eq_none hA
    simp [SessionManager.end_session, hA']
  · intro sid st hsid hst hne
    simp only [SessionManager.end_session, hsid, hst, transition_done_of_ne st hne]
    refine ⟨trivial, ?_, ?_, trivial, trivial, trivial, rfl⟩
    · simp [EventStore.append_event]
    · intro other hother
      simp [EventStore.append_event, hother]

/-- Instantiation of `end_session_spec`: on an empty root `end_session`
fails with `NoActiveSession`, and on `mgr1` (active session `"s1"` in
`PROBLEM_PRESENTED`) it appends the `SESSION_ENDED` event and deactivates
the session. -/
theorem end_session_spec_witness :
    ((mgr0.end_session 1).1 = .error .noActiveSession ∧ (mgr0.end_session 1).2 = mgr0)
  ∧ (mgr1.end_session 1).1 = .ok ()
  ∧ (mgr1.end_session 1).2.files "s1" =
      some ((mgr1.files "s1").getD [] ++
        [.record (Event.toJson ⟨"s1", 1, .SESSION_ENDED,
           .cons "final_state" (.str SessionState.PROBLEM_PRESENTED.value) .nil⟩)])
  ∧ (mgr1.end_session 1).2.active_session_id = none
  ∧ (mgr1.end_session 1).2.pointer = none
  ∧ (mgr1.end_session 1).2.has_active_session = false := by
  have h0 := (end_session_spec mgr0 1).1 (by decide)
  have h1 := (end_session_spec mgr1 1).2 "s1" .PROBLEM_PRESENTED rfl rfl (by decide)
  exact ⟨h0, h1.1, h1.2.1, h1.2.2.2.1, h1.2.2.2.2.2.1, h1.2.2.2.2.2.2⟩

/-- C10: on an active session whose machine is already in `DONE`,
`end_session` first appends the `SESSION_ENDED` event (payload
`final_state = "done"`) and only then fails on the `DONE → DONE` transition:
the log is mutated on the error path, and the session stays active with the
pointer uncleared, for every timestamp — such a session can never be ended. -/
theorem end_session_on_done_nonatomic (m : SessionManager) (sid : String) (ts : Nat)
    (h1 : m.active_session_id = some sid) (h2 : m.state_machine = some .DONE) :
    (m.end_session ts).1 = .error (.invalidTransition .DONE .DONE)
  ∧ (m.end_session ts).2.files sid =
      some ((m.files sid).getD [] ++
        [.record (Event.toJson ⟨sid, ts, .SESSION_ENDED,
           .cons "final_state" (.str "done") .nil⟩)])
  ∧ (m.end_session ts).2.active_session_id = some sid
  ∧ (m.end_session ts).2.state_machine = some .DONE
  ∧ (m.end_session ts).2.pointer = m.pointer
  ∧ (m.end_session ts).2.has_active_session = true := by
  have htr : SessionStateMachine.transition_to .DONE .DONE =
      .error (.invalidTransition .DONE .DONE) := rfl
  simp only [SessionManager.end_session, h1, h2, htr]
  refine ⟨trivial, ?_, trivial, trivial, trivial, ?_⟩
  · simp [EventStore.append_event, SessionState.value]
  · simp [SessionManager.has_active_session, h1]

/-- Instantiation of `end_session_on_done_nonatomic` on `mgr2`: at timestamp
1 the call fails, the `SESSION_ENDED` record is nevertheless appended after
the `SESSION_STARTED` one, and the session stays active. -/
theorem end_session_on_done_nonatomic_witness :
    (mgr2.end_session 1).1 = .error (.invalidTransition .DONE .DONE)
  ∧ (mgr2.end_session 1).2.files "s1" =
      some ((mgr2.files "s1").getD [] ++
        [.record (Event.toJson ⟨"s1", 1, .SESSION_ENDED,
           .cons "final_state" (.str "done") .nil⟩)])
  ∧ (mgr2.end_session 1).2.active_session_id = some "s1"
  ∧ (mgr2.end_session 1).2.state_machine = some .DONE
  ∧ (mgr2.end_session 1).2.pointer = mgr2.pointer
  ∧ (mgr2.end_session 1).2.has_active_session = true :=
  end_session_on_done_nonatomic mgr2 "s1" 1 rfl rfl

/-- C2: the code does not replay events on restart.  A fresh manager creates
session `"s1"`, whose persisted log is exactly `[startEvent]` and whose live
state is `PROBLEM_PRESENTED` — also the state obtained by replaying the log
through the transition table from `IDLE` — yet a second manager constructed
over the same storage root restores the machine to `AWAITING_ACTION`,
contradicting the required replay. -/
theorem restore_ignores_event_history :
    mgr1.get_current_state = .ok .PROBLEM_PRESENTED
  ∧ mgr1.get_session_events = .ok [startEvent]
  ∧ replayEvents [startEvent] = .PROBLEM_PRESENTED
  ∧ (SessionManager.init mgr1.files mgr1.pointer).get_active_session_id = .ok "s1"
  ∧ (SessionManager.init mgr1.files mgr1.pointer).get_current_state = .ok .AWAITING_ACTION
  ∧ SessionState.AWAITING_ACTION ≠ SessionState.PROBLEM_PRESENTED := by
  decide

/-- Dropping whitespace-only lines does not change the result of the
`load_events` loop. -/
theorem parseLines_removeBlanks (lines : List LogLine) :
    EventStore.parseLines lines = EventStore.parseLines (removeBlanks lines) := by
  induction lines with
  | nil => rfl
  | cons l rest ih =>
    cases l with
    | blank => simpa [EventStore.parseLines, removeBlanks] using ih
    | record j =>
      simp only [EventStore.parseLines, removeBlanks, List.filter]
      cases Event.fromJson j with
      | none => simp [EventStore.parseLines]
      | some e => simp [EventStore.parseLines, removeBlanks] at ih ⊢; rw [ih]
    | garbage s => simp [EventStore.parseLines, removeBlanks, List.filter]

/-- A log containing any corrupt line fails the whole load. -/
theorem parseLines_corrupt (lines : List LogLine)
    (h : ∃ l ∈ lines, lineCorrupt l) :
    EventStore.parseLines lines = .error .corruptLog := by
  induction lines with
  | nil => rcases h with ⟨l, hl, _⟩; cases hl
  | cons l rest ih =>
    rcases h with ⟨l', hl', hc⟩
    cases l with
    | blank =>
      rcases List.mem_cons.mp hl' with heq | hmem
      · subst heq; cases hc
      · simpa [EventStore.parseLines] using ih ⟨l', hmem, hc⟩
    | record j =>
      cases hj : Event.fromJson j with
      | none => simp [EventStore.parseLines, hj]
      | some e =>
        rcases List.mem_cons.mp hl' with heq | hmem
        · subst heq; simp [lineCorrupt, hj] at hc
        · simp [EventStore.parseLines, hj, ih ⟨l', hmem, hc⟩, Except.map]
    | garbage s => simp [EventStore.parseLines]

/-- Appending a serialized event to a cleanly parsing log extends the parse
result by exactly that event. -/
theorem parseLines_append_record (lines : List LogLine) (e : Event)
    (evs : List Event) (h : EventStore.parseLines lines = .ok evs) :
    EventStore.parseLines (lines ++ [.record e.toJson]) = .ok (evs ++ [e]) := by
  induction lines generalizing evs with
  | nil =>
    simp only [EventStore.parseLines] at h
    cases h
    simpa using parseLines_single e
  | cons l rest ih =>
    cases l with
    | blank =>
      simp only [EventStore.parseLines, List.cons_append] at h ⊢
      exact ih evs h
    | record j =>
      simp only [EventStore.parseLines, List.cons_append] at h ⊢
      cases hj : Event.fromJson j with
      | none => simp [hj] at h
      | some ev =>
        simp only [hj] at h ⊢
        cases hrest : EventStore.parseLines rest with
        | error err => simp [hrest, Except.map] at h
        | ok evs' =>
          simp only [hrest, Except.map, Except.ok.injEq] at h
          subst h
          simp [ih evs' hrest, Except.map]
    | garbage s => simp [EventStore.parseLines] at h

/-- C7: for every stored log, the load skips whitespace-only lines silently
— the result equals the load of the log with blank lines removed — and if
any line is corrupt (non-blank and failing event validation), the whole
load fails with the `CorruptLog` condition instead of returning the
remaining events. -/
theorem load_events_blanks_and_corrupt (files : Files) (sid : String)
    (lines : List LogLine) (h : files sid = some lines) :
    EventStore.load_events files sid = EventStore.parseLines (removeBlanks lines)
  ∧ ((∃ l ∈ lines, lineCorrupt l) →
      EventStore.load_events files sid = .error .corruptLog) := by
  constructor
  · simp only [EventStore.load_events, h]
    exact parseLines_removeBlanks lines
  · intro hc
    simp only [EventStore.load_events, h]
    exact parseLines_corrupt lines hc

/-- Instantiation of `load_events_blanks_and_corrupt`: a log of a blank line
plus one valid record loads as that single event, and a log whose second
line is garbage fails wholesale with `CorruptLog` even though its first
line is a valid record. -/
theorem load_events_blanks_and_corrupt_witness :
    EventStore.load_events
        (fun sid => if sid = "s1" then some [.blank, .record startEvent.toJson] else none) "s1"
      = EventStore.parseLines (removeBlanks [.blank, .record startEvent.toJson])
  ∧ EventStore.load_events
        (fun sid => if sid = "s2" then some [.record startEvent.toJson, .garbage "oops"] else none) "s2"
      = .error .corruptLog := by
  constructor
  · exact (load_events_blanks_and_corrupt
      (fun sid => if sid = "s1" then some [.blank, .record startEvent.toJson] else none)
      "s1" [.blank, .record startEvent.toJson] (by decide)).1
  · exact (load_events_blanks_and_corrupt
      (fun sid => if sid = "s2" then some [.record startEvent.toJson, .garbage "oops"] else none)
      "s2" [.record startEvent.toJson, .garbage "oops"] (by decide)).2
      ⟨.garbage "oops", by decide, by decide⟩

/-- C8: round-trip law — after `append_event e`, loading the events of
`e.session_id` yields the previously loaded events extended by an event
equal to `e` in all fields (same session id, same event type, deep-equal
payload, and the exact timestamp), provided the prior log loaded cleanly. -/
theorem append_event_roundtrip (files : Files) (e : Event) (evs : List Event)
    (h : EventStore.load_events files e.session_id = .ok evs) :
    EventStore.load_events (EventStore.append_event files e) e.session_id
      = .ok (evs ++ [e])
  ∧ e ∈ evs ++ [e] := by
  refine ⟨?_, by simp⟩
  cases hfs : files e.session_id with
  | none =>
    simp only [EventStore.load_events, hfs] at h
    cases h
    simp only [EventStore.load_events, EventStore.append_event, if_pos rfl, hfs,
      Option.getD_none, List.nil_append]
    simpa using parseLines_single e
  | some lines =>
    simp only [EventStore.load_events, hfs] at h
    simp only [EventStore.load_events, EventStore.append_event, if_pos rfl, hfs,
      Option.getD_some]
    exact parseLines_append_record lines e evs h

/-- Instantiation of `append_event_roundtrip`: appending `startEvent` to an
empty root and then loading `"s1"` returns exactly `[startEvent]`. -/
theorem append_event_roundtrip_witness :
    EventStore.load_events (EventStore.append_event filesEmpty startEvent)
        startEvent.session_id = .ok ([] ++ [startEvent])
  ∧ startEvent ∈ [] ++ [startEvent] :=
  append_event_roundtrip filesEmpty startEvent [] (by decide)

/-- C9: the bare `transition_to` of the manager appends no events — the
files (and the pointer and active id) are untouched whether it succeeds or
fails — while `emit_event` on an active session appends exactly one event
stamped with the active session id and leaves the state machine, the active
id, and the pointer unchanged. -/
theorem transition_no_event_emit_one_event (m : SessionManager)
    (t : SessionState) (ty : EventType) (pl : JsonFields) (ts : Nat) (sid : String) :
    ((m.transition_to t).2.files = m.files
     ∧ (m.transition_to t).2.pointer = m.pointer
     ∧ (m.transition_to t).2.active_session_id = m.active_session_id)
  ∧ (m.active_session_id = some sid →
       (m.emit_event ty pl ts).1 = .ok ()
       ∧ (m.emit_event ty pl ts).2.files sid =
           some ((m.files sid).getD [] ++ [.record (Event.toJson ⟨sid, ts, ty, pl⟩)])
       ∧ (∀ other, other ≠ sid → (m.emit_event ty pl ts).2.files other = m.files other)
       ∧ (m.emit_event ty pl ts).2.state_machine = m.state_machine
       ∧ (m.emit_event ty pl ts).2.active_session_id = m.active_session_id
       ∧ (m.emit_event ty pl ts).2.pointer = m.pointer) := by
  constructor
  · unfold SessionManager.transition_to
    split
    · exact ⟨rfl, rfl, rfl⟩
    · split
      · exact ⟨rfl, rfl, rfl⟩
      · exact ⟨rfl, rfl, rfl⟩
    · exact ⟨rfl, rfl, rfl⟩
  · intro hsid
    simp only [SessionManager.emit_event, hsid]
    refine ⟨trivial, ?_, ?_, trivial, trivial, trivial⟩
    · simp [EventStore.append_event]
    · intro other hother
      simp [EventStore.append_event, hother]

/-- Instantiation of `transition_no_event_emit_one_event` on `mgr1`: the
(successful) transition to `EVALUATING` leaves the log untouched, and
emitting a `CODE_SUBMITTED` event appends exactly one record for `"s1"`. -/
theorem transition_no_event_emit_one_event_witness :
    ((mgr1.transition_to .EVALUATING).2.files = mgr1.files
     ∧ (mgr1.transition_to .EVALUATING).2.pointer = mgr1.pointer
     ∧ (mgr1.transition_to .EVALUATING).2.active_session_id = mgr1.active_session_id)
  ∧ ((mgr1.emit_event .CODE_SUBMITTED (.cons "attempt" (.num 1) .nil) 2).1 = .ok ()
     ∧ (mgr1.emit_event .CODE_SUBMITTED (.cons "attempt" (.num 1) .nil) 2).2.files "s1" =
         some ((mgr1.files "s1").getD [] ++
           [.record (Event.toJson ⟨"s1", 2, .CODE_SUBMITTED, .cons "attempt" (.num 1) .nil⟩)])
     ∧ (∀ other, other ≠ "s1" →
         (mgr1.emit_event .CODE_SUBMITTED (.cons "attempt" (.num 1) .nil) 2).2.files other
           = mgr1.files other)
     ∧ (mgr1.emit_event .CODE_SUBMITTED (.cons "attempt" (.num 1) .nil) 2).2.state_machine
         = mgr1.state_machine
     ∧ (mgr1.emit_event .CODE_SUBMITTED (.cons "attempt" (.num 1) .nil) 2).2.active_session_id
         = mgr1.active_session_id
     ∧ (mgr1.emit_event .CODE_SUBMITTED (.cons "attempt" (.num 1) .nil) 2).2.pointer
         = mgr1.pointer) :=
  ⟨(transition_no_event_emit_one_event mgr1 .EVALUATING .CODE_SUBMITTED
      (.cons "attempt" (.num 1) .nil) 2 "s1").1,
   (transition_no_event_emit_one_event mgr1 .EVALUATING .CODE_SUBMITTED
      (.cons "attempt" (.num 1) .nil) 2 "s1").2 rfl⟩

/-- C6: pointer loading and validation on construction — an absent pointer
file, whitespace-only content, and a dangling pointer (no log for the
referenced id) all yield no active session; content whose stripped form
names a session with an existing log makes that id the active session; and
a fresh manager constructed over the storage root just written by
`create_session` reports the created identifier without further calls. -/
theorem init_pointer_validation (files : Files) (c id : String)
    (lines : List LogLine) (m : SessionManager) (fresh : String) (ts : Nat) :
    (SessionManager.init files none).active_session_id = none
  ∧ (pyStrip c = "" → (SessionManager.init files (some c)).active_session_id = none)
  ∧ (pyStrip c = id → files id = none →
      (SessionManager.init files (some c)).active_session_id = none)
  ∧ (pyStrip c = id → id ≠ "" → files id = some lines →
      (SessionManager.init files (some c)).active_session_id = some id)
  ∧ (m.has_active_session = false → pyStrip fresh = fresh → fresh ≠ "" →
      (SessionManager.init (m.create_session fresh ts).2.files
        (m.create_session fresh ts).2.pointer).active_session_id = some fresh) := by
  refine ⟨rfl, ?_, ?_, ?_, ?_⟩
  · intro hc
    simp [SessionManager.init, SessionManager._load_active_session, hc]
  · intro hc hf
    simp [SessionManager.init, SessionManager._load_active_session, hc,
      EventStore.session_exists, hf]
  · intro hc hne hf
    simp [SessionManager.init, SessionManager._load_active_session, hc,
      EventStore.session_exists, hf, hne]
  · intro hA hstrip hne
    have hA' := active_session_id_eq_none hA
    have htr : SessionStateMachine.transition_to .IDLE .PROBLEM_PRESENTED =
        .ok .PROBLEM_PRESENTED := rfl
    simp [SessionManager.create_session, hA', htr, SessionManager.init,
      SessionManager._load_active_session, hstrip, hne,
      EventStore.session_exists, EventStore.append_event]

/-- Instantiation of `init_pointer_validation`: an absent pointer, a
whitespace-only pointer, a dangling pointer to `"sX"`, a valid pointer to
`"s1"` over `mgr1`'s storage, and a fresh manager over the root written by
`mgr0.create_session "s1"` — the last two both report `"s1"` active. -/
theorem init_pointer_validation_witness :
    (SessionManager.init filesEmpty none).active_session_id = none
  ∧ (SessionManager.init filesEmpty (some " \n ")).active_session_id = none
  ∧ (SessionManager.init filesEmpty (some "sX")).active_session_id = none
  ∧ (SessionManager.init mgr1.files (some "s1")).active_session_id = some "s1"
  ∧ (SessionManager.init (mgr0.create_session "s1" 0).2.files
      (mgr0.create_session "s1" 0).2.pointer).active_session_id = some "s1" :=
  ⟨(init_pointer_validation filesEmpty "" "" [] mgr0 "s1" 0).1,
   (init_pointer_validation filesEmpty " \n " "" [] mgr0 "s1" 0).2.1 (by decide),
   (init_pointer_validation filesEmpty "sX" "sX" [] mgr0 "s1" 0).2.2.1 (by decide) rfl,
   (init_pointer_validation mgr1.files "s1" "s1" [.record startEvent.toJson] mgr0 "s1" 0).2.2.2.1
     (by decide) (by decide) (by decide),
   (init_pointer_validation filesEmpty "" "" [] mgr0 "s1" 0).2.2.2.2
     (by decide) (by decide) (by decide)⟩
